import Mathlib

/-!
# AudioFilter: load-and-report of a WAV file

A shallow embedding of `src/AudioFilter.cpp`.  The program talks to three things it does not
define itself: the WAV decoder (`drwav_init_file`, `drwav_read_pcm_frames_f32`,
`drwav_uninit`), the array allocator (`new float[n]`, `delete[]`) and the two output streams.
The decoder and the allocator are taken as parameters (`Env`); what `main` does with them is
recorded in a `Run`: the value returned by `main`, the records written to `std::cout` and
`std::cerr`, and the sequence of decoder and buffer operations.
-/

namespace AudioFilter

/-- Modelled from the spec: the three header fields of the `drwav` object that `main` reads.
The declaration lives in `dr_wav.h`, which is not among the sources; the widths are those of
`drwav_uint16 channels`, `drwav_uint32 sampleRate` and `drwav_uint64 totalPCMFrameCount`.
Machine integers are natural numbers, the widths are stated by `drwav.inRange`. -/
structure drwav where
  channels : Nat
  sampleRate : Nat
  totalPCMFrameCount : Nat
deriving DecidableEq

/-- The header fields fit their C types. -/
def drwav.inRange (wav : drwav) : Prop :=
  wav.channels < 2 ^ 16 ∧ wav.sampleRate < 2 ^ 32 ∧ wav.totalPCMFrameCount < 2 ^ 64

instance (wav : drwav) : Decidable wav.inRange := by
  unfold drwav.inRange; infer_instance

/-- What the expression `new float[n]` can do: yield a usable pointer, yield `NULL` (the case
the source tests for at line 38), or raise `std::bad_alloc`, in which case control leaves
`main` without a `return`. -/
inductive NewResult where
  | pointer
  | null
  | bad_alloc
deriving DecidableEq

/-- The surroundings of one run: the decoder library and the allocator.
`drwav_init_file path` is `none` when the library answers `DRWAV_FALSE`, and otherwise the
header it filled in; `drwav_read_pcm_frames_f32 wav n` is the frame count the library returns
when asked for `n` frames; `new_float n` is the outcome of `new float[n]`. -/
structure Env where
  drwav_init_file : String → Option drwav
  new_float : Nat → NewResult
  drwav_read_pcm_frames_f32 : drwav → Nat → Nat

/-- Decoder and buffer operations, in the order `main` performs them. -/
inductive Event where
  | init_file (path : String) (ok : Bool)
  | new_float (count : Nat) (result : NewResult)
  | read_pcm_frames_f32 (framesToRead : Nat) (framesRead : Nat)
  | delete_buffer
  | uninit
deriving DecidableEq

/-- Everything observable about one execution of `main`.  `exit` is the value of the `return`
statement reached, `none` when no `return` is reached.  `cout` and `cerr` hold one entry per
`<< ... << std::endl` statement executed, without the line terminator; the characters that
reach the stream are `streamOf` of these entries. -/
structure Run where
  exit : Option Int := none
  cout : List String := []
  cerr : List String := []
  trace : List Event := []
deriving DecidableEq

/-- The statement `std::cout << text << std::endl`. -/
def Run.print (r : Run) (text : String) : Run :=
  { r with cout := r.cout ++ [text] }

/-- Record one decoder or buffer operation. -/
def Run.call (r : Run) (e : Event) : Run :=
  { r with trace := r.trace ++ [e] }

/-- The statement `return code;` of `main`. -/
def Run.ret (r : Run) (code : Int) : Run :=
  { r with exit := some code }

/-- `log_error` (lines 8-11): `std::cerr << "ERROR: " << message << std::endl`. -/
def log_error (message : String) (r : Run) : Run :=
  { r with cerr := r.cerr ++ ["ERROR: " ++ message] }

/-- The operand of `new float[...]` at line 37: `wav.totalPCMFrameCount * wav.channels`,
a product of a `drwav_uint64` and a (promoted) `drwav_uint16`, computed in 64-bit unsigned
arithmetic. -/
def sampleCount (wav : drwav) : Nat :=
  (wav.totalPCMFrameCount * wav.channels) % 2 ^ 64

/-- `main` (lines 13-67).  `argv` is the whole argument vector, program name included, so
`argc` is its length.  The entries of `argv` are C strings; building a `std::string` from one
and handing its `c_str()` to the decoder leaves the text as it is.  The three header fields
are unsigned integers, which `operator<<` prints in decimal. -/
def main (env : Env) (argv : List String) : Run :=
  let r : Run := {}
  if argv.length ≠ 3 then
    let r := log_error "Usage: <program> <input_directory> <output_directory>" r
    r.ret 1
  else
    let input_dir := argv.getD 1 ""
    let _output_dir := argv.getD 2 ""
    let test_file_path := input_dir ++ "/violin.wav"
    let r := r.print ("Attempting to load file: " ++ test_file_path)
    match env.drwav_init_file test_file_path with
    | none =>
      let r := r.call (.init_file test_file_path false)
      let r := log_error "Failed to open audio file." r
      r.ret (-1)
    | some wav =>
      let r := r.call (.init_file test_file_path true)
      match env.new_float (sampleCount wav) with
      | .bad_alloc =>
        r.call (.new_float (sampleCount wav) .bad_alloc)
      | .null =>
        let r := r.call (.new_float (sampleCount wav) .null)
        let r := log_error "Failed to allocate memory for audio data." r
        let r := r.call .uninit
        r.ret (-1)
      | .pointer =>
        let r := r.call (.new_float (sampleCount wav) .pointer)
        let framesRead := env.drwav_read_pcm_frames_f32 wav wav.totalPCMFrameCount
        let r := r.call (.read_pcm_frames_f32 wav.totalPCMFrameCount framesRead)
        if framesRead ≠ wav.totalPCMFrameCount then
          let r := log_error "Failed to read all audio frames." r
          let r := r.call .delete_buffer
          let r := r.call .uninit
          r.ret (-1)
        else
          let r := r.print "✅ File loaded successfully!"
          let r := r.print ("  Channels: " ++ toString wav.channels)
          let r := r.print ("  Sample Rate: " ++ toString wav.sampleRate ++ " Hz")
          let r := r.print ("  Total Frames/Samples: " ++ toString wav.totalPCMFrameCount)
          let r := r.call .delete_buffer
          let r := r.call .uninit
          r.ret 0

/-- The event is a call of `drwav_read_pcm_frames_f32`. -/
def Event.isRead : Event → Bool
  | .read_pcm_frames_f32 _ _ => true
  | _ => false

/-- The characters that reach an output stream: the text of every statement in turn, each
followed by the line break that `std::endl` writes. -/
def streamOf : List String → List Char
  | [] => []
  | text :: rest => text.toList ++ '\n' :: streamOf rest

/-- The pieces of a character sequence between its line breaks. -/
def splitLines : List Char → List (List Char)
  | [] => [[]]
  | c :: cs =>
    if c = '\n' then [] :: splitLines cs
    else
      match splitLines cs with
      | [] => [[c]]
      | l :: ls => (c :: l) :: ls

/-- The lines a reader of standard output sees: the stream cut at its line breaks. -/
def Run.stdoutLines (r : Run) : List String :=
  (splitLines (streamOf r.cout)).map String.mk

/-- A decoder for experiments: every file opens with the given header, every allocation
has the given outcome, and a read returns the given number of frames. -/
def constEnv (wav : Option drwav) (alloc : NewResult) (framesRead : Nat) : Env :=
  { drwav_init_file := fun _ => wav
    new_float := fun _ => alloc
    drwav_read_pcm_frames_f32 := fun _ _ => framesRead }

/-! ## The six ways through `main` -/

lemma main_usage (env : Env) (argv : List String) (h : argv.length ≠ 3) :
    main env argv =
      { exit := some 1
        cout := []
        cerr := ["ERROR: Usage: <program> <input_directory> <output_directory>"]
        trace := [] } := by
  simp [main, h, log_error, Run.ret]

lemma main_open_failed (env : Env) (prog input_dir output_dir : String)
    (h : env.drwav_init_file (input_dir ++ "/violin.wav") = none) :
    main env [prog, input_dir, output_dir] =
      { exit := some (-1)
        cout := ["Attempting to load file: " ++ (input_dir ++ "/violin.wav")]
        cerr := ["ERROR: Failed to open audio file."]
        trace := [.init_file (input_dir ++ "/violin.wav") false] } := by
  simp [main, h, log_error, Run.ret, Run.print, Run.call]

lemma main_bad_alloc (env : Env) (prog input_dir output_dir : String) (wav : drwav)
    (h : env.drwav_init_file (input_dir ++ "/violin.wav") = some wav)
    (ha : env.new_float (sampleCount wav) = .bad_alloc) :
    main env [prog, input_dir, output_dir] =
      { exit := none
        cout := ["Attempting to load file: " ++ (input_dir ++ "/violin.wav")]
        cerr := []
        trace := [.init_file (input_dir ++ "/violin.wav") true,
                  .new_float (sampleCount wav) .bad_alloc] } := by
  simp [main, h, ha, Run.print, Run.call]

lemma main_alloc_null (env : Env) (prog input_dir output_dir : String) (wav : drwav)
    (h : env.drwav_init_file (input_dir ++ "/violin.wav") = some wav)
    (ha : env.new_float (sampleCount wav) = .null) :
    main env [prog, input_dir, output_dir] =
      { exit := some (-1)
        cout := ["Attempting to load file: " ++ (input_dir ++ "/violin.wav")]
        cerr := ["ERROR: Failed to allocate memory for audio data."]
        trace := [.init_file (input_dir ++ "/violin.wav") true,
                  .new_float (sampleCount wav) .null, .uninit] } := by
  simp [main, h, ha, log_error, Run.ret, Run.print, Run.call]

lemma main_read_mismatch (env : Env) (prog input_dir output_dir : String) (wav : drwav)
    (h : env.drwav_init_file (input_dir ++ "/violin.wav") = some wav)
    (ha : env.new_float (sampleCount wav) = .pointer)
    (hr : env.drwav_read_pcm_frames_f32 wav wav.totalPCMFrameCount ≠ wav.totalPCMFrameCount) :
    main env [prog, input_dir, output_dir] =
      { exit := some (-1)
        cout := ["Attempting to load file: " ++ (input_dir ++ "/violin.wav")]
        cerr := ["ERROR: Failed to read all audio frames."]
        trace := [.init_file (input_dir ++ "/violin.wav") true,
                  .new_float (sampleCount wav) .pointer,
                  .read_pcm_frames_f32 wav.totalPCMFrameCount
                    (env.drwav_read_pcm_frames_f32 wav wav.totalPCMFrameCount),
                  .delete_buffer, .uninit] } := by
  simp [main, h, ha, hr, log_error, Run.ret, Run.print, Run.call]

lemma main_loaded (env : Env) (prog input_dir output_dir : String) (wav : drwav)
    (h : env.drwav_init_file (input_dir ++ "/violin.wav") = some wav)
    (ha : env.new_float (sampleCount wav) = .pointer)
    (hr : env.drwav_read_pcm_frames_f32 wav wav.totalPCMFrameCount = wav.totalPCMFrameCount) :
    main env [prog, input_dir, output_dir] =
      { exit := some 0
        cout := ["Attempting to load file: " ++ (input_dir ++ "/violin.wav"),
                 "✅ File loaded successfully!",
                 "  Channels: " ++ toString wav.channels,
                 "  Sample Rate: " ++ toString wav.sampleRate ++ " Hz",
                 "  Total Frames/Samples: " ++ toString wav.totalPCMFrameCount]
        cerr := []
        trace := [.init_file (input_dir ++ "/violin.wav") true,
                  .new_float (sampleCount wav) .pointer,
                  .read_pcm_frames_f32 wav.totalPCMFrameCount wav.totalPCMFrameCount,
                  .delete_buffer, .uninit] } := by
  simp [main, h, ha, hr, Run.ret, Run.print, Run.call]

/-- Two strings that start with different characters differ, whatever follows. -/
lemma append_ne_of_first_char (s t a b : String) (c d : Char) (cs ds : List Char)
    (hs : s.data = c :: cs) (ht : t.data = d :: ds) (hcd : c ≠ d) : s ++ a ≠ t ++ b := by
  intro h
  have hdata := congrArg String.data h
  simp only [String.data_append, hs, ht, List.cons_append, List.cons.injEq] at hdata
  exact hcd hdata.1

/-- The line announcing the path is never the success indicator nor a metadata line. -/
lemma attempt_line_ne (path : String) :
    "Attempting to load file: " ++ path ≠ "✅ File loaded successfully!" ∧
    ∀ value : String,
      "Attempting to load file: " ++ path ≠ "  Channels: " ++ value ∧
      "Attempting to load file: " ++ path ≠ "  Sample Rate: " ++ value ∧
      "Attempting to load file: " ++ path ≠ "  Total Frames/Samples: " ++ value := by
  refine ⟨?_, fun value => ⟨?_, ?_, ?_⟩⟩
  · have h := append_ne_of_first_char "Attempting to load file: "
      "✅ File loaded successfully!" path "" 'A' '✅' _ _ rfl rfl (by decide)
    simpa using h
  · exact append_ne_of_first_char _ _ _ _ 'A' ' ' _ _ rfl rfl (by decide)
  · exact append_ne_of_first_char _ _ _ _ 'A' ' ' _ _ rfl rfl (by decide)
  · exact append_ne_of_first_char _ _ _ _ 'A' ' ' _ _ rfl rfl (by decide)

/-- A stretch without line break, closed by a line break, is one line of the stream. -/
lemma splitLines_append_newline (l rest : List Char) (h : '\n' ∉ l) :
    splitLines (l ++ '\n' :: rest) = l :: splitLines rest := by
  induction l with
  | nil => simp [splitLines]
  | cons c l ih =>
    have hc : c ≠ '\n' := fun hc => h (by simp [hc])
    have hl : '\n' ∉ l := fun hl => h (by simp [hl])
    simp [splitLines, hc, ih hl]

/-- A single statement whose text has no line break puts that text on the stream as one line,
followed by nothing. -/
lemma stdoutLines_single (r : Run) (text : String) (hr : r.cout = [text])
    (h : '\n' ∉ text.toList) : r.stdoutLines = [text, ""] := by
  simp only [Run.stdoutLines, hr, streamOf]
  rw [splitLines_append_newline _ _ h]
  rfl

/-- The line announcing the path has a line break only where the input directory has one. -/
lemma attempt_line_no_newline (input_dir : String) (h : '\n' ∉ input_dir.toList) :
    '\n' ∉ ("Attempting to load file: " ++ (input_dir ++ "/violin.wav")).toList := by
  have h1 : '\n' ∉ "Attempting to load file: ".data := by decide
  have h2 : '\n' ∉ "/violin.wav".data := by decide
  have h3 : '\n' ∉ input_dir.data := h
  simp only [String.toList, String.data_append, List.mem_append, not_or]
  exact ⟨h1, h3, h2⟩

/-- The empty line is neither the success indicator nor a metadata line. -/
lemma empty_line_ne :
    "" ≠ "✅ File loaded successfully!" ∧
    ∀ value : String,
      "" ≠ "  Channels: " ++ value ∧
      "" ≠ "  Sample Rate: " ++ value ∧
      "" ≠ "  Total Frames/Samples: " ++ value := by
  have key : ∀ (t value : String) (c : Char) (cs : List Char), t.data = c :: cs →
      "" ≠ t ++ value := by
    intro t value c cs ht h
    have hdata := congrArg String.data h
    simp [ht] at hdata
  exact ⟨by decide, fun value =>
    ⟨key _ value ' ' _ rfl, key _ value ' ' _ rfl, key _ value ' ' _ rfl⟩⟩

/-- Every run of `main` is one of the six above. -/
lemma main_cases (env : Env) (argv : List String) :
    (argv.length ≠ 3 ∧
      main env argv =
        { exit := some 1
          cout := []
          cerr := ["ERROR: Usage: <program> <input_directory> <output_directory>"]
          trace := [] }) ∨
    ∃ prog input_dir output_dir, argv = [prog, input_dir, output_dir] ∧
      ((env.drwav_init_file (input_dir ++ "/violin.wav") = none ∧
        main env argv =
          { exit := some (-1)
            cout := ["Attempting to load file: " ++ (input_dir ++ "/violin.wav")]
            cerr := ["ERROR: Failed to open audio file."]
            trace := [.init_file (input_dir ++ "/violin.wav") false] }) ∨
       ∃ wav, env.drwav_init_file (input_dir ++ "/violin.wav") = some wav ∧
        ((env.new_float (sampleCount wav) = .bad_alloc ∧
          main env argv =
            { exit := none
              cout := ["Attempting to load file: " ++ (input_dir ++ "/violin.wav")]
              cerr := []
              trace := [.init_file (input_dir ++ "/violin.wav") true,
                        .new_float (sampleCount wav) .bad_alloc] }) ∨
         (env.new_float (sampleCount wav) = .null ∧
          main env argv =
            { exit := some (-1)
              cout := ["Attempting to load file: " ++ (input_dir ++ "/violin.wav")]
              cerr := ["ERROR: Failed to allocate memory for audio data."]
              trace := [.init_file (input_dir ++ "/violin.wav") true,
                        .new_float (sampleCount wav) .null, .uninit] }) ∨
         (env.new_float (sampleCount wav) = .pointer ∧
          env.drwav_read_pcm_frames_f32 wav wav.totalPCMFrameCount ≠ wav.totalPCMFrameCount ∧
          main env argv =
            { exit := some (-1)
              cout := ["Attempting to load file: " ++ (input_dir ++ "/violin.wav")]
              cerr := ["ERROR: Failed to read all audio frames."]
              trace := [.init_file (input_dir ++ "/violin.wav") true,
                        .new_float (sampleCount wav) .pointer,
                        .read_pcm_frames_f32 wav.totalPCMFrameCount
                          (env.drwav_read_pcm_frames_f32 wav wav.totalPCMFrameCount),
                        .delete_buffer, .uninit] }) ∨
         (env.new_float (sampleCount wav) = .pointer ∧
          env.drwav_read_pcm_frames_f32 wav wav.totalPCMFrameCount = wav.totalPCMFrameCount ∧
          main env argv =
            { exit := some 0
              cout := ["Attempting to load file: " ++ (input_dir ++ "/violin.wav"),
                       "✅ File loaded successfully!",
                       "  Channels: " ++ toString wav.channels,
                       "  Sample Rate: " ++ toString wav.sampleRate ++ " Hz",
                       "  Total Frames/Samples: " ++ toString wav.totalPCMFrameCount]
              cerr := []
              trace := [.init_file (input_dir ++ "/violin.wav") true,
                        .new_float (sampleCount wav) .pointer,
                        .read_pcm_frames_f32 wav.totalPCMFrameCount wav.totalPCMFrameCount,
                        .delete_buffer, .uninit] }))) := by
  by_cases hlen : argv.length ≠ 3
  · exact Or.inl ⟨hlen, main_usage env argv hlen⟩
  · right
    obtain ⟨prog, input_dir, output_dir, rfl⟩ := List.length_eq_three.mp (not_not.mp hlen)
    refine ⟨prog, input_dir, output_dir, rfl, ?_⟩
    cases h : env.drwav_init_file (input_dir ++ "/violin.wav") with
    | none => exact Or.inl ⟨rfl, main_open_failed env prog input_dir output_dir h⟩
    | some wav =>
      right
      refine ⟨wav, rfl, ?_⟩
      cases ha : env.new_float (sampleCount wav) with
      | bad_alloc => exact Or.inl ⟨rfl, main_bad_alloc env prog input_dir output_dir wav h ha⟩
      | null =>
        exact Or.inr (Or.inl ⟨rfl, main_alloc_null env prog input_dir output_dir wav h ha⟩)
      | pointer =>
        by_cases hr :
            env.drwav_read_pcm_frames_f32 wav wav.totalPCMFrameCount = wav.totalPCMFrameCount
        · exact Or.inr (Or.inr (Or.inr
            ⟨rfl, hr, main_loaded env prog input_dir output_dir wav h ha hr⟩))
        · exact Or.inr (Or.inr (Or.inl
            ⟨rfl, hr, main_read_mismatch env prog input_dir output_dir wav h ha hr⟩))

/-! ## Argument check -/

/-- C1: when `argc` is not 3, `main` returns 1 and writes the usage error to standard error,
whatever the decoder would answer: no decoder or buffer operation is performed (in particular
`drwav_init_file` is not called) and nothing is written to standard output. -/
theorem main_wrong_argc (env : Env) (argv : List String) (h : argv.length ≠ 3) :
    (main env argv).exit = some 1 ∧
    (main env argv).cerr = ["ERROR: Usage: <program> <input_directory> <output_directory>"] ∧
    (main env argv).cout = [] ∧
    (main env argv).trace = [] := by
  rw [main_usage env argv h]
  exact ⟨rfl, rfl, rfl, rfl⟩

/-- C1 at one argument and at three arguments, with a decoder that would open any file. -/
theorem main_wrong_argc_witness :
    (["prog", "in"].length ≠ 3 ∧
      (main (constEnv (some ⟨2, 44100, 5⟩) .pointer 5) ["prog", "in"]).exit = some 1 ∧
      (main (constEnv (some ⟨2, 44100, 5⟩) .pointer 5) ["prog", "in"]).cerr =
        ["ERROR: Usage: <program> <input_directory> <output_directory>"] ∧
      (main (constEnv (some ⟨2, 44100, 5⟩) .pointer 5) ["prog", "in"]).cout = [] ∧
      (main (constEnv (some ⟨2, 44100, 5⟩) .pointer 5) ["prog", "in"]).trace = []) ∧
    (["prog", "in", "out", "extra"].length ≠ 3 ∧
      (main (constEnv (some ⟨2, 44100, 5⟩) .pointer 5) ["prog", "in", "out", "extra"]).exit
        = some 1) :=
  ⟨⟨by decide, main_wrong_argc _ _ (by decide)⟩,
   ⟨by decide, (main_wrong_argc _ ["prog", "in", "out", "extra"] (by decide)).1⟩⟩

/-! ## Successful load -/

/-- C2: in a run with exactly two arguments in which the open succeeds with header `wav` and
the decode call returns exactly `wav.totalPCMFrameCount` frames, `main` returns 0 and standard
output holds, after the line announcing the path, the success indicator followed by the
channel count, the sample rate and the total frame count of that header, in decimal. -/
theorem main_reports_header (env : Env) (prog input_dir output_dir : String) (wav : drwav)
    (hopen : env.drwav_init_file (input_dir ++ "/violin.wav") = some wav)
    (hread : ∃ framesToRead, Event.read_pcm_frames_f32 framesToRead wav.totalPCMFrameCount ∈
      (main env [prog, input_dir, output_dir]).trace) :
    (main env [prog, input_dir, output_dir]).exit = some 0 ∧
    (main env [prog, input_dir, output_dir]).cout =
      ["Attempting to load file: " ++ (input_dir ++ "/violin.wav"),
       "✅ File loaded successfully!",
       "  Channels: " ++ toString wav.channels,
       "  Sample Rate: " ++ toString wav.sampleRate ++ " Hz",
       "  Total Frames/Samples: " ++ toString wav.totalPCMFrameCount] := by
  obtain ⟨n, hn⟩ := hread
  have hopen : env.drwav_init_file (input_dir ++ "/violin.wav") = some wav := hopen
  cases ha : env.new_float (sampleCount wav) with
  | bad_alloc =>
    rw [main_bad_alloc env prog input_dir output_dir wav hopen ha] at hn
    simp at hn
  | null =>
    rw [main_alloc_null env prog input_dir output_dir wav hopen ha] at hn
    simp at hn
  | pointer =>
    by_cases hr :
        env.drwav_read_pcm_frames_f32 wav wav.totalPCMFrameCount = wav.totalPCMFrameCount
    · rw [main_loaded env prog input_dir output_dir wav hopen ha hr]
      exact ⟨rfl, rfl⟩
    · rw [main_read_mismatch env prog input_dir output_dir wav hopen ha hr] at hn
      simp at hn
      exact absurd hn.2.symm hr

/-- C2 on a stereo header of five frames at 44100 Hz. -/
theorem main_reports_header_witness :
    (main (constEnv (some ⟨2, 44100, 5⟩) .pointer 5) ["prog", "in", "out"]).exit = some 0 ∧
    (main (constEnv (some ⟨2, 44100, 5⟩) .pointer 5) ["prog", "in", "out"]).cout =
      ["Attempting to load file: in/violin.wav",
       "✅ File loaded successfully!",
       "  Channels: 2",
       "  Sample Rate: 44100 Hz",
       "  Total Frames/Samples: 5"] :=
  main_reports_header (constEnv (some ⟨2, 44100, 5⟩) .pointer 5) "prog" "in" "out"
    ⟨2, 44100, 5⟩ rfl ⟨5, by decide⟩

/-! ## Failures -/

/-- C3: in a run with exactly two arguments in which the decoder open fails, `main` returns
-1 and writes one `ERROR:` line to standard error; the open is the only operation performed,
so no buffer is allocated, nothing is decoded and nothing is left to release. -/
theorem main_open_failure (env : Env) (prog input_dir output_dir : String)
    (hopen : env.drwav_init_file (input_dir ++ "/violin.wav") = none) :
    (main env [prog, input_dir, output_dir]).exit = some (-1) ∧
    (main env [prog, input_dir, output_dir]).cerr = ["ERROR: Failed to open audio file."] ∧
    (main env [prog, input_dir, output_dir]).trace =
      [.init_file (input_dir ++ "/violin.wav") false] ∧
    (∀ count result,
      Event.new_float count result ∉ (main env [prog, input_dir, output_dir]).trace) ∧
    (∀ framesToRead framesRead,
      Event.read_pcm_frames_f32 framesToRead framesRead ∉
        (main env [prog, input_dir, output_dir]).trace) := by
  rw [main_open_failed env prog input_dir output_dir hopen]
  refine ⟨rfl, rfl, rfl, ?_, ?_⟩ <;> simp

/-- C3 with a decoder that opens nothing. -/
theorem main_open_failure_witness :
    (main (constEnv none .pointer 0) ["prog", "in", "out"]).exit = some (-1) ∧
    (main (constEnv none .pointer 0) ["prog", "in", "out"]).cerr =
      ["ERROR: Failed to open audio file."] ∧
    (main (constEnv none .pointer 0) ["prog", "in", "out"]).trace =
      [.init_file "in/violin.wav" false] :=
  have h := main_open_failure (constEnv none .pointer 0) "prog" "in" "out" rfl
  ⟨h.1, h.2.1, h.2.2.1⟩

/-- C4: in a run with exactly two arguments in which the open succeeds and the buffer is
allocated, a decode call that returns fewer frames than `totalPCMFrameCount` makes `main`
return -1 and write one `ERROR:` line to standard error. -/
theorem main_short_read (env : Env) (prog input_dir output_dir : String) (wav : drwav)
    (hopen : env.drwav_init_file (input_dir ++ "/violin.wav") = some wav)
    (halloc : env.new_float (sampleCount wav) = .pointer)
    (hshort : env.drwav_read_pcm_frames_f32 wav wav.totalPCMFrameCount
      < wav.totalPCMFrameCount) :
    (main env [prog, input_dir, output_dir]).exit = some (-1) ∧
    (main env [prog, input_dir, output_dir]).cerr =
      ["ERROR: Failed to read all audio frames."] := by
  rw [main_read_mismatch env prog input_dir output_dir wav hopen halloc (Nat.ne_of_lt hshort)]
  exact ⟨rfl, rfl⟩

/-- C4 on a header that declares five frames of which three can be decoded. -/
theorem main_short_read_witness :
    (main (constEnv (some ⟨2, 44100, 5⟩) .pointer 3) ["prog", "in", "out"]).exit
      = some (-1) ∧
    (main (constEnv (some ⟨2, 44100, 5⟩) .pointer 3) ["prog", "in", "out"]).cerr =
      ["ERROR: Failed to read all audio frames."] :=
  main_short_read (constEnv (some ⟨2, 44100, 5⟩) .pointer 3) "prog" "in" "out"
    ⟨2, 44100, 5⟩ rfl rfl (by decide)

/-! ## The file that is opened -/

/-- C7: for every input directory `input_dir` and every output directory, the first
operation of the run is the decoder open on exactly `input_dir ++ "/violin.wav"`, no open is
made on any other path, and the first line on standard output echoes that same path after
`Attempting to load file: `. -/
theorem main_opens_fixed_file (env : Env) (prog input_dir output_dir : String) :
    (∃ ok, (main env [prog, input_dir, output_dir]).trace.head? =
      some (.init_file (input_dir ++ "/violin.wav") ok)) ∧
    (∀ path ok, Event.init_file path ok ∈ (main env [prog, input_dir, output_dir]).trace →
      path = input_dir ++ "/violin.wav") ∧
    (main env [prog, input_dir, output_dir]).cout.head? =
      some ("Attempting to load file: " ++ (input_dir ++ "/violin.wav")) := by
  rcases main_cases env [prog, input_dir, output_dir] with ⟨hlen, -⟩ | ⟨p, d, o, hargv, h⟩
  · exact absurd rfl hlen
  · obtain ⟨-, rfl, -⟩ : p = prog ∧ d = input_dir ∧ o = output_dir := by simpa using hargv.symm
    rcases h with ⟨-, hm⟩ | ⟨wav, -, ⟨-, hm⟩ | ⟨-, hm⟩ | ⟨-, -, hm⟩ | ⟨-, -, hm⟩⟩ <;>
      rw [hm] <;> simp

/-- C9: the output directory argument is unused.  For every input directory, every decoder and
allocator behaviour and any two output directories, the two runs of `main` are the same in
every observable: exit code, standard output, standard error and the sequence of decoder and
buffer operations. -/
theorem main_output_dir_unused (env : Env) (prog input_dir o1 o2 : String) :
    (main env [prog, input_dir, o1]).exit = (main env [prog, input_dir, o2]).exit ∧
    (main env [prog, input_dir, o1]).cout = (main env [prog, input_dir, o2]).cout ∧
    (main env [prog, input_dir, o1]).cerr = (main env [prog, input_dir, o2]).cerr ∧
    (main env [prog, input_dir, o1]).trace = (main env [prog, input_dir, o2]).trace := by
  have h : main env [prog, input_dir, o1] = main env [prog, input_dir, o2] := rfl
  rw [h]
  exact ⟨rfl, rfl, rfl, rfl⟩

/-! ## Resources -/

/-- What does hold of the operations of every run: an allocation is attempted only after a
successful open; a buffer that was allocated is released exactly once; whenever `main` reaches
a `return` (usage error, open failure, null allocation, read mismatch, success) a decoder
handle that was initialised is released exactly once; a buffer release always precedes the
handle release; neither resource is ever released twice. -/
lemma main_trace_discipline (env : Env) (argv : List String) :
    (∀ (j : Nat) count result,
      (main env argv).trace[j]? = some (Event.new_float count result) →
      ∃ (i : Nat) (path : String), i < j ∧
        (main env argv).trace[i]? = some (Event.init_file path true)) ∧
    ((∃ count, Event.new_float count .pointer ∈ (main env argv).trace) →
      (main env argv).trace.count Event.delete_buffer = 1) ∧
    ((main env argv).exit ≠ none →
      (∃ path, Event.init_file path true ∈ (main env argv).trace) →
      (main env argv).trace.count Event.uninit = 1) ∧
    (∀ i j : Nat, (main env argv).trace[i]? = some Event.delete_buffer →
      (main env argv).trace[j]? = some Event.uninit → i < j) ∧
    (main env argv).trace.count Event.delete_buffer ≤ 1 ∧
    (main env argv).trace.count Event.uninit ≤ 1 := by
  rcases main_cases env argv with ⟨-, hm⟩ | ⟨p, d, o, -, h⟩
  · rw [hm]; simp
  · rcases h with ⟨-, hm⟩ | ⟨wav, -, ⟨-, hm⟩ | ⟨-, hm⟩ | ⟨-, -, hm⟩ | ⟨-, -, hm⟩⟩
    · rw [hm]
      refine ⟨?_, ?_, ?_, ?_, ?_, ?_⟩
      · intro j count result hj
        match j, hj with
        | 0, hj => simp at hj
        | _ + 1, hj => simp at hj
      · simp
      · simp
      · intro i j hi
        match i, hi with
        | 0, hi => simp at hi
        | _ + 1, hi => simp at hi
      · simp
      · simp
    · rw [hm]
      refine ⟨?_, ?_, ?_, ?_, ?_, ?_⟩
      · intro j count result hj
        match j, hj with
        | 0, hj => simp at hj
        | 1, _ => exact ⟨0, d ++ "/violin.wav", by decide, rfl⟩
        | _ + 2, hj => simp at hj
      · simp
      · simp
      · intro i j hi
        match i, hi with
        | 0, hi => simp at hi
        | 1, hi => simp at hi
        | _ + 2, hi => simp at hi
      · simp
      · simp
    · rw [hm]
      refine ⟨?_, ?_, ?_, ?_, ?_, ?_⟩
      · intro j count result hj
        match j, hj with
        | 0, hj => simp at hj
        | 1, _ => exact ⟨0, d ++ "/violin.wav", by decide, rfl⟩
        | 2, hj => simp at hj
        | _ + 3, hj => simp at hj
      · simp
      · intro _ _; simp [List.count_cons]
      · intro i j hi
        match i, hi with
        | 0, hi => simp at hi
        | 1, hi => simp at hi
        | 2, hi => simp at hi
        | _ + 3, hi => simp at hi
      · simp [List.count_cons]
      · simp [List.count_cons]
    · rw [hm]
      refine ⟨?_, ?_, ?_, ?_, ?_, ?_⟩
      · intro j count result hj
        match j, hj with
        | 0, hj => simp at hj
        | 1, _ => exact ⟨0, d ++ "/violin.wav", by decide, rfl⟩
        | 2, hj => simp at hj
        | 3, hj => simp at hj
        | 4, hj => simp at hj
        | _ + 5, hj => simp at hj
      · intro _; simp [List.count_cons]
      · intro _ _; simp [List.count_cons]
      · intro i j hi hj
        match i, hi with
        | 0, hi => simp at hi
        | 1, hi => simp at hi
        | 2, hi => simp at hi
        | 3, _ =>
          match j, hj with
          | 0, hj => simp at hj
          | 1, hj => simp at hj
          | 2, hj => simp at hj
          | 3, hj => simp at hj
          | _ + 4, _ => omega
        | 4, hi => simp at hi
        | _ + 5, hi => simp at hi
      · simp [List.count_cons]
      · simp [List.count_cons]
    · rw [hm]
      refine ⟨?_, ?_, ?_, ?_, ?_, ?_⟩
      · intro j count result hj
        match j, hj with
        | 0, hj => simp at hj
        | 1, _ => exact ⟨0, d ++ "/violin.wav", by decide, rfl⟩
        | 2, hj => simp at hj
        | 3, hj => simp at hj
        | 4, hj => simp at hj
        | _ + 5, hj => simp at hj
      · intro _; simp [List.count_cons]
      · intro _ _; simp [List.count_cons]
      · intro i j hi hj
        match i, hi with
        | 0, hi => simp at hi
        | 1, hi => simp at hi
        | 2, hi => simp at hi
        | 3, _ =>
          match j, hj with
          | 0, hj => simp at hj
          | 1, hj => simp at hj
          | 2, hj => simp at hj
          | 3, hj => simp at hj
          | _ + 4, _ => omega
        | 4, hi => simp at hi
        | _ + 5, hi => simp at hi
      · simp [List.count_cons]
      · simp [List.count_cons]

/-- C5 fails on the code when the allocation fails: a mono header declaring `2 ^ 62` frames
has fields that fit their types and asks for `2 ^ 62` floats, which `new float[...]` answers
by raising.  The decoder handle was initialised by a successful open, yet the run ends right
after the allocation: `drwav_uninit` is never called, no `return` is reached and no `ERROR:`
line is written.  The release at lines 40-42 sits behind a test for `NULL`. -/
theorem main_bad_alloc_keeps_handle :
    (drwav.mk 1 44100 (2 ^ 62)).inRange ∧
    sampleCount (drwav.mk 1 44100 (2 ^ 62)) = 2 ^ 62 ∧
    (main (constEnv (some (drwav.mk 1 44100 (2 ^ 62))) .bad_alloc 0)
        ["prog", "in", "out"]).trace =
      [.init_file "in/violin.wav" true, .new_float (2 ^ 62) .bad_alloc] ∧
    (main (constEnv (some (drwav.mk 1 44100 (2 ^ 62))) .bad_alloc 0)
        ["prog", "in", "out"]).trace.count Event.uninit = 0 ∧
    (main (constEnv (some (drwav.mk 1 44100 (2 ^ 62))) .bad_alloc 0)
        ["prog", "in", "out"]).exit = none ∧
    (main (constEnv (some (drwav.mk 1 44100 (2 ^ 62))) .bad_alloc 0)
        ["prog", "in", "out"]).cerr = [] := by
  rw [main_bad_alloc _ "prog" "in" "out" (drwav.mk 1 44100 (2 ^ 62)) rfl rfl]
  refine ⟨by decide, by decide, by decide, by decide, rfl, rfl⟩

/-! ## Error reporting -/

/-- Error reporting, statement by statement: which output statements a run executes. -/
lemma main_records_report (env : Env) (argv : List String) :
    ((∃ code : Int, (main env argv).exit = some code ∧ code ≠ 0) ↔
      (main env argv).cerr.length = 1) ∧
    (∀ line ∈ (main env argv).cerr,
      (∃ message : String, line = "ERROR: " ++ message) ∧ '\n' ∉ line.toList) ∧
    ((main env argv).exit ≠ some 0 →
      "✅ File loaded successfully!" ∉ (main env argv).cout ∧
      ∀ line ∈ (main env argv).cout, ∀ value : String,
        line ≠ "  Channels: " ++ value ∧
        line ≠ "  Sample Rate: " ++ value ∧
        line ≠ "  Total Frames/Samples: " ++ value) ∧
    ((main env argv).exit = some 0 → (main env argv).cerr = []) := by
  rcases main_cases env argv with ⟨-, hm⟩ | ⟨p, d, o, -, h⟩
  · rw [hm]
    refine ⟨by simp, ?_, by simp, by simp⟩
    intro line hline
    obtain rfl : line = "ERROR: Usage: <program> <input_directory> <output_directory>" := by
      simpa using hline
    exact ⟨⟨"Usage: <program> <input_directory> <output_directory>", rfl⟩, by decide⟩
  · have hcout : ∀ line ∈ ["Attempting to load file: " ++ (d ++ "/violin.wav")],
        line ≠ "✅ File loaded successfully!" ∧ ∀ value : String,
          line ≠ "  Channels: " ++ value ∧
          line ≠ "  Sample Rate: " ++ value ∧
          line ≠ "  Total Frames/Samples: " ++ value := by
      intro line hline
      obtain rfl : line = "Attempting to load file: " ++ (d ++ "/violin.wav") := by
        simpa using hline
      exact attempt_line_ne _
    rcases h with ⟨-, hm⟩ | ⟨wav, -, ⟨-, hm⟩ | ⟨-, hm⟩ | ⟨-, -, hm⟩ | ⟨-, -, hm⟩⟩
    · rw [hm]
      refine ⟨by simp, ?_, fun _ => ⟨fun hmem => (hcout _ hmem).1 rfl,
        fun line hline => (hcout line hline).2⟩, by simp⟩
      intro line hline
      obtain rfl : line = "ERROR: Failed to open audio file." := by simpa using hline
      exact ⟨⟨"Failed to open audio file.", rfl⟩, by decide⟩
    · rw [hm]
      refine ⟨by simp, by simp, fun _ => ⟨fun hmem => (hcout _ hmem).1 rfl,
        fun line hline => (hcout line hline).2⟩, by simp⟩
    · rw [hm]
      refine ⟨by simp, ?_, fun _ => ⟨fun hmem => (hcout _ hmem).1 rfl,
        fun line hline => (hcout line hline).2⟩, by simp⟩
      intro line hline
      obtain rfl : line = "ERROR: Failed to allocate memory for audio data." := by
        simpa using hline
      exact ⟨⟨"Failed to allocate memory for audio data.", rfl⟩, by decide⟩
    · rw [hm]
      refine ⟨by simp, ?_, fun _ => ⟨fun hmem => (hcout _ hmem).1 rfl,
        fun line hline => (hcout line hline).2⟩, by simp⟩
      intro line hline
      obtain rfl : line = "ERROR: Failed to read all audio frames." := by simpa using hline
      exact ⟨⟨"Failed to read all audio frames.", rfl⟩, by decide⟩
    · rw [hm]
      exact ⟨by simp, by simp, fun hne => absurd rfl hne, by simp⟩

/-- C8 as amended: for every run, `main` returns a non-zero exit code if and only if exactly
one line is written to standard error; every line written to standard error is `ERROR: `
followed by a message and contains no line break; on a run that does not return 0 the
statements printing the success indicator and the metadata are not executed, standard output
holding nothing or the one statement that echoes the path, and when the input directory
contains no line break no line of standard output is the success indicator or a metadata
line; on a run that returns 0 nothing is written to standard error. -/
theorem main_error_reporting (env : Env) (argv : List String) :
    ((∃ code : Int, (main env argv).exit = some code ∧ code ≠ 0) ↔
      (main env argv).cerr.length = 1) ∧
    (∀ line ∈ (main env argv).cerr,
      (∃ message : String, line = "ERROR: " ++ message) ∧ '\n' ∉ line.toList) ∧
    ((main env argv).exit ≠ some 0 →
      "✅ File loaded successfully!" ∉ (main env argv).cout ∧
      ∀ line ∈ (main env argv).cout, ∀ value : String,
        line ≠ "  Channels: " ++ value ∧
        line ≠ "  Sample Rate: " ++ value ∧
        line ≠ "  Total Frames/Samples: " ++ value) ∧
    ((main env argv).exit = some 0 → (main env argv).cerr = []) ∧
    ((main env argv).exit ≠ some 0 →
      (main env argv).cout = [] ∨
      (main env argv).cout =
        ["Attempting to load file: " ++ (argv.getD 1 "" ++ "/violin.wav")]) ∧
    ((main env argv).exit ≠ some 0 → '\n' ∉ (argv.getD 1 "").toList →
      "✅ File loaded successfully!" ∉ (main env argv).stdoutLines ∧
      ∀ line ∈ (main env argv).stdoutLines, ∀ value : String,
        line ≠ "  Channels: " ++ value ∧
        line ≠ "  Sample Rate: " ++ value ∧
        line ≠ "  Total Frames/Samples: " ++ value) := by
  refine ⟨(main_records_report env argv).1, (main_records_report env argv).2.1,
    (main_records_report env argv).2.2.1, (main_records_report env argv).2.2.2, ?_, ?_⟩
  · intro hexit
    rcases main_cases env argv with ⟨-, hm⟩ | ⟨p, d, o, rfl, h⟩
    · rw [hm]; exact Or.inl rfl
    · rcases h with ⟨-, hm⟩ | ⟨wav, -, ⟨-, hm⟩ | ⟨-, hm⟩ | ⟨-, -, hm⟩ | ⟨-, -, hm⟩⟩
      · rw [hm]; exact Or.inr rfl
      · rw [hm]; exact Or.inr rfl
      · rw [hm]; exact Or.inr rfl
      · rw [hm]; exact Or.inr rfl
      · rw [hm] at hexit; exact absurd rfl hexit
  · intro hexit hnl
    have hempty : ∀ line ∈ ["", ""], line ≠ "✅ File loaded successfully!" ∧
        ∀ value : String,
          line ≠ "  Channels: " ++ value ∧
          line ≠ "  Sample Rate: " ++ value ∧
          line ≠ "  Total Frames/Samples: " ++ value := by
      intro line hline
      obtain rfl : line = "" := by simpa using hline
      exact empty_line_ne
    have hlines : ∀ line ∈ (main env argv).stdoutLines,
        line ≠ "✅ File loaded successfully!" ∧ ∀ value : String,
          line ≠ "  Channels: " ++ value ∧
          line ≠ "  Sample Rate: " ++ value ∧
          line ≠ "  Total Frames/Samples: " ++ value := by
      rcases main_cases env argv with ⟨-, hm⟩ | ⟨p, d, o, rfl, h⟩
      · rw [hm]
        intro line hline
        have hl : line = "" := by
          simpa [Run.stdoutLines, streamOf, splitLines] using hline
        subst hl
        exact empty_line_ne
      · have hd : '\n' ∉ d.toList := hnl
        have hone : ∀ r : Run,
            r.cout = ["Attempting to load file: " ++ (d ++ "/violin.wav")] →
            ∀ line ∈ r.stdoutLines,
              line ≠ "✅ File loaded successfully!" ∧ ∀ value : String,
                line ≠ "  Channels: " ++ value ∧
                line ≠ "  Sample Rate: " ++ value ∧
                line ≠ "  Total Frames/Samples: " ++ value := by
          intro r hr line hline
          rw [stdoutLines_single r _ hr (attempt_line_no_newline d hd)] at hline
          rcases List.mem_cons.mp hline with rfl | hline
          · exact attempt_line_ne _
          · obtain rfl : line = "" := by simpa using hline
            exact empty_line_ne
        rcases h with ⟨-, hm⟩ | ⟨wav, -, ⟨-, hm⟩ | ⟨-, hm⟩ | ⟨-, -, hm⟩ | ⟨-, -, hm⟩⟩
        · rw [hm]; exact hone _ rfl
        · rw [hm]; exact hone _ rfl
        · rw [hm]; exact hone _ rfl
        · rw [hm]; exact hone _ rfl
        · rw [hm] at hexit; exact absurd rfl hexit
    exact ⟨fun hmem => (hlines _ hmem).1 rfl, fun line hline => (hlines line hline).2⟩

/-- C8 at a failed open below a plain directory name. -/
theorem main_error_reporting_witness :
    "✅ File loaded successfully!" ∉
      (main (constEnv none .pointer 0) ["prog", "in", "out"]).stdoutLines :=
  ((main_error_reporting (constEnv none .pointer 0) ["prog", "in", "out"]).2.2.2.2.2
    (by decide) (by decide)).1

/-- C8 as first stated fails: the path line echoes the input directory as given, so with a
failed open below a directory name that carries line breaks followed by the success text,
`main` returns -1 and standard output shows the success indicator and the three metadata
lines. -/
theorem main_echo_shows_success_lines :
    (main (constEnv none .pointer 0)
      ["prog",
       "x\n✅ File loaded successfully!\n  Channels: 2\n  Sample Rate: 44100 Hz\n  Total Frames/Samples: 5\n",
       "out"]).exit = some (-1) ∧
    (main (constEnv none .pointer 0)
      ["prog",
       "x\n✅ File loaded successfully!\n  Channels: 2\n  Sample Rate: 44100 Hz\n  Total Frames/Samples: 5\n",
       "out"]).stdoutLines =
      ["Attempting to load file: x",
       "✅ File loaded successfully!",
       "  Channels: 2",
       "  Sample Rate: 44100 Hz",
       "  Total Frames/Samples: 5",
       "/violin.wav",
       ""] := by
  rw [main_open_failed _ _ _ _ rfl]
  exact ⟨rfl, by decide⟩

/-! ## Exit code -/

/-- C10: the exit code of `main` is determined as follows: 1 when `argc` is not 3; with
`argc = 3`, -1 when the open fails, when the allocation yields a null buffer, or when the
decode call returns a frame count different from `totalPCMFrameCount` (larger as well as
smaller); 0 exactly when `argc = 3`, the open succeeds, the buffer is non-null and the decode
call returns exactly `totalPCMFrameCount`.  No value other than 1, -1 and 0 is returned.  The
decode call is made at most once and always requests exactly `totalPCMFrameCount` frames of
the opened header. -/
theorem main_exit_code (env : Env) (argv : List String) :
    (argv.length ≠ 3 → (main env argv).exit = some 1) ∧
    (∀ prog input_dir output_dir, argv = [prog, input_dir, output_dir] →
      (env.drwav_init_file (input_dir ++ "/violin.wav") = none →
        (main env argv).exit = some (-1)) ∧
      (∀ wav, env.drwav_init_file (input_dir ++ "/violin.wav") = some wav →
        (env.new_float (sampleCount wav) = .null → (main env argv).exit = some (-1)) ∧
        (env.new_float (sampleCount wav) = .pointer →
          env.drwav_read_pcm_frames_f32 wav wav.totalPCMFrameCount
            ≠ wav.totalPCMFrameCount →
          (main env argv).exit = some (-1)) ∧
        (env.new_float (sampleCount wav) = .pointer →
          env.drwav_read_pcm_frames_f32 wav wav.totalPCMFrameCount
            = wav.totalPCMFrameCount →
          (main env argv).exit = some 0))) ∧
    ((main env argv).exit = some 0 →
      ∃ prog input_dir output_dir wav, argv = [prog, input_dir, output_dir] ∧
        env.drwav_init_file (input_dir ++ "/violin.wav") = some wav ∧
        env.new_float (sampleCount wav) = .pointer ∧
        env.drwav_read_pcm_frames_f32 wav wav.totalPCMFrameCount
          = wav.totalPCMFrameCount) ∧
    (∀ code : Int, (main env argv).exit = some code → code = 1 ∨ code = -1 ∨ code = 0) ∧
    (main env argv).trace.countP Event.isRead ≤ 1 ∧
    (∀ framesToRead framesRead,
      Event.read_pcm_frames_f32 framesToRead framesRead ∈ (main env argv).trace →
      ∃ wav, env.drwav_init_file (argv.getD 1 "" ++ "/violin.wav") = some wav ∧
        framesToRead = wav.totalPCMFrameCount) := by
  refine ⟨fun hlen => by rw [main_usage env argv hlen], ?_, ?_, ?_, ?_, ?_⟩
  · rintro prog input_dir output_dir rfl
    refine ⟨fun hopen => by rw [main_open_failed env prog input_dir output_dir hopen],
      fun wav hopen => ⟨fun ha => ?_, fun ha hr => ?_, fun ha hr => ?_⟩⟩
    · rw [main_alloc_null env prog input_dir output_dir wav hopen ha]
    · rw [main_read_mismatch env prog input_dir output_dir wav hopen ha hr]
    · rw [main_loaded env prog input_dir output_dir wav hopen ha hr]
  · intro hexit
    rcases main_cases env argv with ⟨-, hm⟩ | ⟨p, d, o, hargv, h⟩
    · rw [hm] at hexit; simp at hexit
    · rcases h with ⟨-, hm⟩ | ⟨wav, hopen, ⟨-, hm⟩ | ⟨-, hm⟩ | ⟨-, -, hm⟩ | ⟨ha, hr, -⟩⟩
      · rw [hm] at hexit; simp at hexit
      · rw [hm] at hexit; simp at hexit
      · rw [hm] at hexit; simp at hexit
      · rw [hm] at hexit; simp at hexit
      · exact ⟨p, d, o, wav, hargv, hopen, ha, hr⟩
  · intro code hcode
    rcases main_cases env argv with ⟨-, hm⟩ | ⟨p, d, o, -, h⟩
    · rw [hm] at hcode
      left; simpa using hcode.symm
    · rcases h with ⟨-, hm⟩ | ⟨wav, -, ⟨-, hm⟩ | ⟨-, hm⟩ | ⟨-, -, hm⟩ | ⟨-, -, hm⟩⟩
      · rw [hm] at hcode
        right; left; simpa using hcode.symm
      · rw [hm] at hcode; simp at hcode
      · rw [hm] at hcode
        right; left; simpa using hcode.symm
      · rw [hm] at hcode
        right; left; simpa using hcode.symm
      · rw [hm] at hcode
        right; right; simpa using hcode.symm
  · rcases main_cases env argv with ⟨-, hm⟩ | ⟨p, d, o, -, h⟩
    · rw [hm]; simp
    · rcases h with ⟨-, hm⟩ | ⟨wav, -, ⟨-, hm⟩ | ⟨-, hm⟩ | ⟨-, -, hm⟩ | ⟨-, -, hm⟩⟩ <;>
        rw [hm] <;> simp [List.countP_cons, Event.isRead]
  · intro framesToRead framesRead hmem
    rcases main_cases env argv with ⟨-, hm⟩ | ⟨p, d, o, rfl, h⟩
    · rw [hm] at hmem; simp at hmem
    · rcases h with ⟨-, hm⟩ | ⟨wav, hopen, ⟨-, hm⟩ | ⟨-, hm⟩ | ⟨-, -, hm⟩ | ⟨-, -, hm⟩⟩
      · rw [hm] at hmem; simp at hmem
      · rw [hm] at hmem; simp at hmem
      · rw [hm] at hmem; simp at hmem
      · rw [hm] at hmem
        simp at hmem
        exact ⟨wav, hopen, hmem.1⟩
      · rw [hm] at hmem
        simp at hmem
        exact ⟨wav, hopen, hmem.1⟩

/-! ## Size of the sample buffer -/

/-- When the product of frame count and channel count fits 64 bits, the number of floats
requested is that product. -/
lemma sampleCount_eq_mul (wav : drwav)
    (h : wav.totalPCMFrameCount * wav.channels < 2 ^ 64) :
    sampleCount wav = wav.totalPCMFrameCount * wav.channels :=
  Nat.mod_eq_of_lt h

/-- C6 fails on the code: a stereo header declaring `2 ^ 63` frames has fields that fit their
types and the product of frame count and channel count is `2 ^ 64`, yet the count computed for
`new float[...]` is 0: whatever the decoder then returns, `main` requests a buffer of 0 floats
and asks the decoder to store `2 ^ 63` frames in it. -/
theorem sampleCount_wraps :
    (drwav.mk 2 44100 (2 ^ 63)).inRange ∧
    (drwav.mk 2 44100 (2 ^ 63)).totalPCMFrameCount * (drwav.mk 2 44100 (2 ^ 63)).channels
      = 2 ^ 64 ∧
    sampleCount (drwav.mk 2 44100 (2 ^ 63)) = 0 ∧
    ∀ framesRead : Nat,
      (main (constEnv (some (drwav.mk 2 44100 (2 ^ 63))) .pointer framesRead)
          ["prog", "in", "out"]).trace =
        [.init_file "in/violin.wav" true,
         .new_float 0 .pointer,
         .read_pcm_frames_f32 (2 ^ 63) framesRead,
         .delete_buffer, .uninit] := by
  refine ⟨by decide, by decide, by decide, fun framesRead => ?_⟩
  by_cases hr : framesRead = 2 ^ 63
  · subst hr
    rw [main_loaded _ "prog" "in" "out" (drwav.mk 2 44100 (2 ^ 63)) rfl rfl rfl]
    decide
  · rw [main_read_mismatch _ "prog" "in" "out" (drwav.mk 2 44100 (2 ^ 63)) rfl rfl hr]
    simp only [constEnv, List.cons.injEq, Event.new_float.injEq, true_and, and_true]
    decide

end AudioFilter
